import Mathlib

/-!
Verification of the bastion `Distributor` module (src/bastion/src/distributor.rs)
against its natural-language specification.

The `Distributor` request surface is embedded shallowly: the asynchronous
plumbing (spawned task, oneshot conduit) is rendered by passing the outcome of
each suspension point (the `ask` call result, the awaited reply, the timer
race) as an explicit parameter, and the body of each spawned task becomes a
pure Lean function over those outcomes.  External collaborators of the module
(the string interner, the global dispatcher and its subscriber registry, the
typed-envelope `MessageHandler`) are code of the same repository that is not
part of the sources under review; those are modelled from the specification,
and each such definition says so in its doc comment.
-/

namespace Bastion

/-- Type tags a caller can expect a reply to have (the static type `R` of
`request::<R>`). -/
inductive Ty where
  | nat
  | str
  | bool
  | unit
deriving DecidableEq, Repr

/-- Modelled from the spec: the typed-envelope payload is a tagged sum
carrying a discriminant plus a variant payload (design note in the spec);
`DynVal` is the dynamically typed message value. -/
inductive DynVal where
  | natV (n : Nat)
  | strV (s : String)
  | boolV (b : Bool)
  | unitV
deriving DecidableEq, Repr

/-- The discriminant of a dynamically typed value. -/
def DynVal.ty : DynVal → Ty
  | .natV _ => .nat
  | .strV _ => .str
  | .boolV _ => .bool
  | .unitV => .unit

/-- The Lean type denoted by a type tag. -/
@[reducible] def Ty.denote : Ty → Type
  | .nat => Nat
  | .str => String
  | .bool => Bool
  | .unit => Unit

/-- Modelled from the spec: the typed-envelope capability attempts an ordered
list of type-directed handlers; `decodeAs R m` is the downcast of `m` to the
expected type `R`, succeeding exactly when the discriminant matches. -/
def decodeAs : (R : Ty) → DynVal → Option R.denote
  | .nat, .natV n => some n
  | .str, .strV s => some s
  | .bool, .boolV b => some b
  | .unit, .unitV => some ()
  | _, _ => none

/-- Errors of the distributor surface.  `Other` is the variant
`SendError::Other(anyhow::anyhow!(...))` built in distributor.rs, modelled as
carrying the rendered message string.  The remaining variants are modelled
from the spec error taxonomy for the dispatcher code that is outside the
sources under review: `Unreachable` (zero subscribers at snapshot time) and
`RegistryFault` (registry or actor system unavailable). -/
inductive SendError where
  | Unreachable
  | RegistryFault (msg : String)
  | Other (msg : String)
deriving DecidableEq, Repr

/-- True exactly on the `SendError::Other` variant. -/
def SendError.isOther : SendError → Bool
  | .Other _ => true
  | _ => false

/-! ### The string interner

Modelled from the spec: the Name Interner maps a string to a small stable
copyable handle and back; handle equality holds exactly for name equality,
interning is idempotent and append-only.  The state is the list of interned
strings; a handle (`Spur`) is an index into it. -/

/-- Modelled from the spec: interner state, the append-only list of interned
strings.  A handle is an index into this list. -/
structure Interner where
  strings : List String
deriving DecidableEq, Repr

/-- Index of the first occurrence of `s`, if any. -/
def findIdx : String → List String → Option Nat
  | _, [] => none
  | s, x :: xs => if x = s then some 0 else (findIdx s xs).map (· + 1)

/-- Modelled from the spec: `get_or_intern` returns the handle of `s`,
interning it first when absent. -/
def Interner.get_or_intern (I : Interner) (s : String) : Interner × Nat :=
  match findIdx s I.strings with
  | some i => (I, i)
  | none => (⟨I.strings ++ [s]⟩, I.strings.length)

/-- The `Distributor` wraps exactly one interned name handle
(`pub struct Distributor(Spur)`). -/
structure Distributor where
  spur : Nat
deriving DecidableEq, Repr

/-- The derived `Hash` of a `Distributor` is determined by its interned
handle. -/
def Distributor.hashVal (d : Distributor) : Nat := d.spur

/-- Embedding of `Distributor::named`: interning the name and wrapping the
resulting handle, with the interner state threaded explicitly. -/
def Distributor.named (I : Interner) (name : String) : Interner × Distributor :=
  let p := I.get_or_intern name
  (p.1, ⟨p.2⟩)

/-! Lemmas about the interner. -/

theorem findIdx_get : ∀ (l : List String) (s : String) (i : Nat),
    findIdx s l = some i → l.get? i = some s := by
  intro l
  induction l with
  | nil => intro s i h; simp [findIdx] at h
  | cons x xs ih =>
    intro s i h
    simp only [findIdx] at h
    by_cases hx : x = s
    · simp [hx] at h
      subst h
      simp [hx]
    · simp [hx] at h
      obtain ⟨j, hj, hji⟩ := h
      subst hji
      simpa using ih s j hj

theorem findIdx_append_none (l : List String) (s : String)
    (h : findIdx s l = none) : findIdx s (l ++ [s]) = some l.length := by
  induction l with
  | nil => simp [findIdx]
  | cons x xs ih =>
    simp only [findIdx] at h ⊢
    by_cases hx : x = s
    · simp [hx] at h
    · simp [hx] at h ⊢
      exact ih h

theorem findIdx_append_some (l r : List String) (s : String) (i : Nat)
    (h : findIdx s l = some i) : findIdx s (l ++ r) = some i := by
  induction l generalizing i with
  | nil => simp [findIdx] at h
  | cons x xs ih =>
    simp only [findIdx] at h ⊢
    by_cases hx : x = s
    · simp [hx] at h ⊢; exact h
    · simp [hx] at h ⊢
      obtain ⟨j, hj, hji⟩ := h
      exact ⟨j, ih j hj, hji⟩

theorem get_or_intern_extends (I : Interner) (s : String) :
    ∃ rest, (I.get_or_intern s).1.strings = I.strings ++ rest := by
  unfold Interner.get_or_intern
  cases h : findIdx s I.strings with
  | none => exact ⟨[s], rfl⟩
  | some i => exact ⟨[], by simp⟩

theorem get_or_intern_lookup (I : Interner) (s : String) :
    (I.get_or_intern s).1.strings.get? (I.get_or_intern s).2 = some s := by
  unfold Interner.get_or_intern
  cases h : findIdx s I.strings with
  | none =>
    simp only
    rw [List.get?_append_right (by omega)]
    simp
  | some i =>
    simp only
    exact findIdx_get _ _ _ h

theorem get_or_intern_first (I : Interner) (s : String) :
    findIdx s (I.get_or_intern s).1.strings = some (I.get_or_intern s).2 := by
  unfold Interner.get_or_intern
  cases h : findIdx s I.strings with
  | none =>
    simp only
    exact findIdx_append_none _ _ h
  | some i =>
    simpa using h

theorem get_or_intern_eq_of_found (J : Interner) (s : String) (i : Nat)
    (h : findIdx s J.strings = some i) : J.get_or_intern s = (J, i) := by
  unfold Interner.get_or_intern
  rw [h]

theorem get_or_intern_idem (I : Interner) (s : String) :
    (I.get_or_intern s).1.get_or_intern s = I.get_or_intern s := by
  rw [get_or_intern_eq_of_found _ _ _ (get_or_intern_first I s)]

/-! ### Subscriber registry and global dispatcher

Modelled from the spec: the Subscriber Registry maps each interned name handle
to the set of currently subscribed endpoints; register inserts idempotently,
remove takes a list of names and deletes the endpoint from each listed group
only; snapshot is the current set, with unknown names behaving as empty sets.
Endpoints (`ChildRef`) are opaque equality-comparable handles, modelled as
natural numbers. -/

/-- Modelled from the spec: the registry state, one subscriber list per
interned name handle. -/
structure Registry where
  subs : Nat → List Nat

/-- Modelled from the spec: a consistent snapshot of the subscribers of a
name; unknown names behave as empty sets. -/
def Registry.snapshot (reg : Registry) (spur : Nat) : List Nat :=
  reg.subs spur

/-- Modelled from the spec: idempotent insert of an endpoint under one name. -/
def Registry.register_recipient (reg : Registry) (spur : Nat) (e : Nat) : Registry :=
  ⟨fun n =>
    if n = spur then
      if e ∈ reg.subs n then reg.subs n else reg.subs n ++ [e]
    else reg.subs n⟩

/-- Modelled from the spec: removes the endpoint from each listed group; a
no-op, not an error, where it is absent. -/
def Registry.remove_recipient (reg : Registry) (names : List Nat) (e : Nat) : Registry :=
  ⟨fun n => if n ∈ names then (reg.subs n).filter (fun x => x ≠ e) else reg.subs n⟩

/-- A pending reply slot handed back by an ask: the single-use conduit that
the chosen endpoint will complete with its reply (bastion `Answer`). -/
structure Answer where
  endpoint : Nat
  question : DynVal
deriving DecidableEq, Repr

/-- Awaiting an answer delivers the reply the endpoint produces for the
question; `replies` is the (deterministic, for modelling) behaviour of each
endpoint. -/
def Answer.await (replies : Nat → DynVal → DynVal) (a : Answer) : DynVal :=
  replies a.endpoint a.question

namespace GlobalDispatcher

/-- Modelled from the spec: `tell` delivers to exactly one snapshot member,
failing with Unreachable when the snapshot is empty; it returns once the
mailbox accepts the message. -/
def tell (reg : Registry) (d : Distributor) (_m : DynVal) : Except SendError Unit :=
  match reg.snapshot d.spur with
  | [] => .error .Unreachable
  | _ :: _ => .ok ()

/-- Modelled from the spec: `ask` is like `tell` but creates a pending reply
slot for the one chosen endpoint. -/
def ask (reg : Registry) (d : Distributor) (q : DynVal) : Except SendError Answer :=
  match reg.snapshot d.spur with
  | [] => .error .Unreachable
  | e :: _ => .ok ⟨e, q⟩

/-- Modelled from the spec: `ask_everyone` creates one independent pending
reply slot per snapshot member, delivering a clone of the question plus its
own slot to each; it fails globally only when the snapshot is empty. -/
def ask_everyone (reg : Registry) (d : Distributor) (q : DynVal) :
    Except SendError (List Answer) :=
  match reg.snapshot d.spur with
  | [] => .error .Unreachable
  | e :: rest => .ok ((e :: rest).map (fun x => ⟨x, q⟩))

end GlobalDispatcher

/-- Embedding of `Distributor::tell_one`: a thin pass-through to the global
dispatcher. -/
def Distributor.tell_one (d : Distributor) (reg : Registry) (m : DynVal) :
    Except SendError Unit :=
  GlobalDispatcher.tell reg d m

/-- Embedding of `Distributor::ask_one`: a thin pass-through to the global
dispatcher. -/
def Distributor.ask_one (d : Distributor) (reg : Registry) (q : DynVal) :
    Except SendError Answer :=
  GlobalDispatcher.ask reg d q

/-- Embedding of `Distributor::ask_everyone`: a thin pass-through to the
global dispatcher. -/
def Distributor.ask_everyone (d : Distributor) (reg : Registry) (q : DynVal) :
    Except SendError (List Answer) :=
  GlobalDispatcher.ask_everyone reg d q

/-- Embedding of `Distributor::subscribe`: registers the endpoint under
exactly this handle. -/
def Distributor.subscribe (d : Distributor) (reg : Registry) (e : Nat) : Registry :=
  reg.register_recipient d.spur e

/-- Embedding of `Distributor::unsubscribe`: the source calls
`remove_recipient(&vec![*self], child_ref)`, removing the endpoint from the
one-element name list holding only this handle. -/
def Distributor.unsubscribe (d : Distributor) (reg : Registry) (e : Nat) : Registry :=
  reg.remove_recipient [d.spur] e

/-! ### The request-style task bodies

Each `request*` call spawns a task whose body is a pure function of the
outcomes of its suspension points: the result of `SYSTEM.dispatcher().ask`,
the awaited reply conduit, and (for the timeout variant) which side of the
`futures::select!` race finished first. -/

/-- Outcome of awaiting the reply conduit (`response.await`): the reply
message, or `canceled` when the conduit was dropped uncompleted
(`oneshot::Canceled`). -/
inductive ReplyOutcome where
  | ok (m : DynVal)
  | canceled
deriving DecidableEq, Repr

/-- Which branch of the `futures::select!` race in `request_timeout` finished
first: the response future (with its outcome), or the `Delay` timer — in
which case `late` is the reply that may still arrive afterwards, never
observed by the task. -/
inductive RaceOutcome where
  | reply (r : ReplyOutcome)
  | timedOut (late : ReplyOutcome)
deriving DecidableEq, Repr

/-- The message of the anyhow error built for a wrong-typed reply. -/
def typeMismatchMsg : String := "received a message with the wrong type"

/-- The message of the anyhow error built when the timer wins the race. -/
def timeoutMsg : String := "operation timed out before finish"

/-- The `Debug` rendering of `oneshot::Canceled`, interpolated by
`request` and `request_timeout` into their reply-failure message. -/
def canceledDebug : String := "Canceled"

/-- The reply interpretation all three request variants perform:
`MessageHandler::new(message).on_tell(|reply: R, _| Ok(reply)).on_fallback(...)`,
one type-matching handler for `R` plus a fallback reporting the mismatch. -/
def interpretReply (R : Ty) (m : DynVal) : Except SendError R.denote :=
  match decodeAs R m with
  | some v => .ok v
  | none => .error (.Other typeMismatchMsg)

/-- Embedding of the task body of `Distributor::request`: `askRes` is the
result of the `ask` call, `reply` the outcome of `response.await` (consulted
only when the ask succeeded).  The returned value is the one `Result`
the task sends through the oneshot conduit. -/
def Distributor.request (R : Ty) (askRes : Except SendError Unit)
    (reply : ReplyOutcome) : Except SendError R.denote :=
  match askRes with
  | .ok _ =>
    match reply with
    | .ok m => interpretReply R m
    | .canceled => .error (.Other ("couldn't receive reply: " ++ canceledDebug))
  | .error e => .error e

/-- Embedding of the task body of `Distributor::request_sync`: identical to
`request` except that the reply-failure branch (the `else` of
`if let Ok(message) = response.await`) builds its message without the
underlying error. -/
def Distributor.request_sync (R : Ty) (askRes : Except SendError Unit)
    (reply : ReplyOutcome) : Except SendError R.denote :=
  match askRes with
  | .ok _ =>
    match reply with
    | .ok m => interpretReply R m
    | .canceled => .error (.Other "couldn't receive reply")
  | .error e => .error e

/-- Embedding of the task body of `Distributor::request_timeout`: when the
ask succeeds the body enters the `futures::select!` race and acts on whichever
branch won; when the ask fails the race outcome is never consulted. -/
def Distributor.request_timeout (R : Ty) (askRes : Except SendError Unit)
    (race : RaceOutcome) : Except SendError R.denote :=
  match askRes with
  | .ok _ =>
    match race with
    | .reply (.ok m) => interpretReply R m
    | .reply .canceled => .error (.Other ("couldn't receive reply: " ++ canceledDebug))
    | .timedOut _ => .error (.Other timeoutMsg)
  | .error e => .error e

/-- The list of `sender.send` calls the `request` task performs along the
executed path, in order (each match arm of the source performs exactly one). -/
def requestSends (R : Ty) (askRes : Except SendError Unit)
    (reply : ReplyOutcome) : List (Except SendError R.denote) :=
  match askRes with
  | .ok _ =>
    match reply with
    | .ok m => [interpretReply R m]
    | .canceled => [.error (.Other ("couldn't receive reply: " ++ canceledDebug))]
  | .error e => [.error e]

/-- The list of `sender.send` calls the `request_sync` task performs along
the executed path, in order. -/
def requestSyncSends (R : Ty) (askRes : Except SendError Unit)
    (reply : ReplyOutcome) : List (Except SendError R.denote) :=
  match askRes with
  | .ok _ =>
    match reply with
    | .ok m => [interpretReply R m]
    | .canceled => [.error (.Other "couldn't receive reply")]
  | .error e => [.error e]

/-- The list of `sender.send` calls the `request_timeout` task performs along
the executed path, in order. -/
def requestTimeoutSends (R : Ty) (askRes : Except SendError Unit)
    (race : RaceOutcome) : List (Except SendError R.denote) :=
  match askRes with
  | .ok _ =>
    match race with
    | .reply (.ok m) => [interpretReply R m]
    | .reply .canceled => [.error (.Other ("couldn't receive reply: " ++ canceledDebug))]
    | .timedOut _ => [.error (.Other timeoutMsg)]
  | .error e => [.error e]

/-- What `sender.send(result)` does on a oneshot or mpsc conduit whose
receiver may already have been dropped: it fails, handing the payload back,
without delivering — and without panicking. -/
def conduitSend {α : Type} (receiverAlive : Bool) (r : α) : Except α Unit :=
  if receiverAlive then .ok () else .error r

/-- Completion status of the spawned `request` task: each send result is
discarded with `let _ = ...` in the source, so the task always finishes
normally; a panic would be modelled as `.error`. -/
def requestTaskRun (R : Ty) (receiverAlive : Bool) (askRes : Except SendError Unit)
    (reply : ReplyOutcome) : Except String Unit :=
  let result := Distributor.request R askRes reply
  let _ := conduitSend receiverAlive result
  .ok ()

/-- Completion status of the spawned `request_sync` task. -/
def requestSyncTaskRun (R : Ty) (receiverAlive : Bool) (askRes : Except SendError Unit)
    (reply : ReplyOutcome) : Except String Unit :=
  let result := Distributor.request_sync R askRes reply
  let _ := conduitSend receiverAlive result
  .ok ()

/-- Completion status of the spawned `request_timeout` task. -/
def requestTimeoutTaskRun (R : Ty) (receiverAlive : Bool) (askRes : Except SendError Unit)
    (race : RaceOutcome) : Except String Unit :=
  let result := Distributor.request_timeout R askRes race
  let _ := conduitSend receiverAlive result
  .ok ()

/-- Classifies a delivered result as carrying a `SendError::Other` error. -/
def deliveredIsOther {α : Type} : Except SendError α → Bool
  | .error (.Other _) => true
  | _ => false

/-! ### Helper lemmas -/

theorem decodeAs_eq_none_of_ty_ne (R : Ty) (m : DynVal) (h : m.ty ≠ R) :
    decodeAs R m = none := by
  cases R <;> cases m <;> first
    | rfl
    | exact absurd rfl h

theorem decodeAs_ty_eq_of_some (R : Ty) (m : DynVal)
    (h : decodeAs R m ≠ none) : m.ty = R := by
  cases R <;> cases m <;> first
    | rfl
    | exact absurd rfl h

theorem map_sum_const {α : Type} (l : List α) (g : α → Nat) (v : Nat)
    (h : ∀ x ∈ l, g x = v) : (l.map g).sum = l.length * v := by
  induction l with
  | nil => simp
  | cons x xs ih =>
    simp only [List.map_cons, List.sum_cons, List.length_cons]
    rw [h x (by simp), ih (fun y hy => h y (by simp [hy]))]
    ring

/-! ### The claims -/

/-- C1: every request-style call delivers exactly one `Result` through the
returned conduit — each executed path of the `request`, `request_sync` and
`request_timeout` task bodies performs exactly one `sender.send`, of the
value the body computes — and in `request_timeout` exactly one of a reply, a
timeout, or an upstream ask failure is observed: a timer win yields the
Timeout error whatever reply may arrive later, so no path leaves the caller
without a delivered `Result`. -/
theorem request_delivers_exactly_one_result (R : Ty) :
    (∀ a r, (requestSends R a r).length = 1)
  ∧ (∀ a r, (requestSyncSends R a r).length = 1)
  ∧ (∀ a c, (requestTimeoutSends R a c).length = 1)
  ∧ (∀ a r, requestSends R a r = [Distributor.request R a r])
  ∧ (∀ a r, requestSyncSends R a r = [Distributor.request_sync R a r])
  ∧ (∀ a c, requestTimeoutSends R a c = [Distributor.request_timeout R a c])
  ∧ (∀ late, Distributor.request_timeout R (.ok ()) (.timedOut late)
      = .error (.Other timeoutMsg)) := by
  refine ⟨?_, ?_, ?_, ?_, ?_, ?_, ?_⟩
  · intro a r; cases a <;> cases r <;> rfl
  · intro a r; cases a <;> cases r <;> rfl
  · intro a c; cases a <;> rcases c with (_ | _) | _ <;> rfl
  · intro a r; cases a <;> cases r <;> rfl
  · intro a r; cases a <;> cases r <;> rfl
  · intro a c; cases a <;> rcases c with (_ | _) | _ <;> rfl
  · intro late; rfl

/-- C2: when the responder replies with a value that is not of type `R`,
`request` delivers the TypeMismatch error built by the fallback handler, and
never a success value: the interpretation uses exactly one type-matching
handler for `R` plus the mismatch-reporting fallback. -/
theorem request_wrong_type_is_mismatch (R : Ty) (m : DynVal) (h : m.ty ≠ R) :
    Distributor.request R (.ok ()) (.ok m) = .error (.Other typeMismatchMsg)
  ∧ ∀ v : R.denote, Distributor.request R (.ok ()) (.ok m) ≠ .ok v := by
  have hd : decodeAs R m = none := decodeAs_eq_none_of_ty_ne R m h
  constructor
  · simp [Distributor.request, interpretReply, hd]
  · intro v
    simp [Distributor.request, interpretReply, hd]

/-- Witness for C2 at a concrete wrong-typed reply: a `String` reply to a
`request` expecting a `Nat`. -/
theorem request_wrong_type_is_mismatch_witness :
    (DynVal.strV "hello").ty ≠ Ty.nat
  ∧ Distributor.request .nat (.ok ()) (.ok (.strV "hello"))
      = .error (.Other typeMismatchMsg) :=
  ⟨by decide, (request_wrong_type_is_mismatch .nat (.strV "hello") (by decide)).1⟩

/-- C3: when the underlying `ask` fails, `request` and `request_timeout`
forward that very error as the delivered result, independent of any reply
outcome (no reply is awaited) and, for `request_timeout`, independent of the
race outcome (the timer race is never entered). -/
theorem ask_failure_forwarded (R : Ty) (e : SendError) :
    (∀ r, Distributor.request R (.error e) r = .error e)
  ∧ (∀ c, Distributor.request_timeout R (.error e) c = .error e)
  ∧ (∀ c c2, Distributor.request_timeout R (.error e) c
      = Distributor.request_timeout R (.error e) c2) := by
  refine ⟨fun r => rfl, fun c => rfl, fun c c2 => rfl⟩

/-- C4 counterexample: with the reply conduit dropped, `request_sync` and
`request` deliver different error values — both are `SendError::Other`, but
`request` interpolates the `Debug` rendering of the `oneshot::Canceled` error
into its message and `request_sync` does not, so the outcomes are not
identical in every case. -/
theorem request_sync_differs_on_dropped_conduit :
    Distributor.request_sync .nat (.ok ()) .canceled
      ≠ Distributor.request .nat (.ok ()) .canceled := by
  simp only [Distributor.request_sync, Distributor.request, canceledDebug]
  intro h
  have h2 := Except.error.inj h
  have h3 := SendError.Other.inj h2
  exact absurd h3 (by decide)

/-- C4 amended: `request_sync` has semantics identical to `request` in the
ask-failure case and for every reply message (same success value, same
TypeMismatch error); in the dropped-conduit case both deliver a
`SendError::Other` error, but with different message texts. -/
theorem request_sync_matches_request (R : Ty) :
    (∀ (e : SendError) r, Distributor.request_sync R (.error e) r
        = Distributor.request R (.error e) r)
  ∧ (∀ m, Distributor.request_sync R (.ok ()) (.ok m)
        = Distributor.request R (.ok ()) (.ok m))
  ∧ (∃ s t, Distributor.request_sync R (.ok ()) .canceled = .error (.Other s)
      ∧ Distributor.request R (.ok ()) .canceled = .error (.Other t)
      ∧ s ≠ t) := by
  refine ⟨fun e r => rfl, fun m => rfl,
    ⟨"couldn't receive reply", "couldn't receive reply: " ++ canceledDebug,
      rfl, rfl, by decide⟩⟩

/-- C5: interning distinct names yields distinct Distributors; repeating
`named` with the same string leaves the interner unchanged and yields a
Distributor that compares equal and hashes equal to the first. -/
theorem named_distinct_and_idempotent (I : Interner) (n1 n2 : String)
    (h : n1 ≠ n2) :
    (Distributor.named (Distributor.named I n1).1 n2).2 ≠ (Distributor.named I n1).2
  ∧ (Distributor.named (Distributor.named I n1).1 n1).2 = (Distributor.named I n1).2
  ∧ (Distributor.named (Distributor.named I n1).1 n1).2.hashVal
      = (Distributor.named I n1).2.hashVal := by
  have key : ∀ (J : Interner) (s : String),
      Distributor.named J s = ((J.get_or_intern s).1, ⟨(J.get_or_intern s).2⟩) :=
    fun J s => rfl
  refine ⟨?_, ?_, ?_⟩
  · rw [key, key]
    intro hcontra
    have hi : (((Distributor.named I n1).1).get_or_intern n2).2
        = (I.get_or_intern n1).2 := congrArg Distributor.spur hcontra
    have h1 : (I.get_or_intern n1).1.strings.get? (I.get_or_intern n1).2 = some n1 :=
      get_or_intern_lookup I n1
    have h2 : (((Distributor.named I n1).1).get_or_intern n2).1.strings.get?
        (((Distributor.named I n1).1).get_or_intern n2).2 = some n2 :=
      get_or_intern_lookup _ n2
    obtain ⟨rest, hext⟩ := get_or_intern_extends ((Distributor.named I n1).1) n2
    have hlt : (I.get_or_intern n1).2 < (I.get_or_intern n1).1.strings.length := by
      rw [List.get?_eq_some] at h1
      exact h1.1
    have h1x : (((Distributor.named I n1).1).get_or_intern n2).1.strings.get?
        (I.get_or_intern n1).2 = some n1 := by
      rw [hext]
      show ((I.get_or_intern n1).1.strings ++ rest).get? (I.get_or_intern n1).2 = some n1
      rw [List.get?_append hlt]
      exact h1
    rw [hi] at h2
    rw [h1x] at h2
    exact h (Option.some.inj h2)
  · rw [key, key]
    show (Distributor.mk ((Interner.get_or_intern _ n1).2)) = _
    rw [get_or_intern_idem I n1]
  · rw [key, key]
    show ((Interner.get_or_intern _ n1).2) = _
    rw [get_or_intern_idem I n1]
    rfl

/-- Witness for C5 at concrete names, starting from the empty interner. -/
theorem named_distinct_and_idempotent_witness :
    "alpha" ≠ "beta"
  ∧ (Distributor.named (Distributor.named ⟨[]⟩ "alpha").1 "beta").2
      ≠ (Distributor.named ⟨[]⟩ "alpha").2 :=
  ⟨by decide, (named_distinct_and_idempotent ⟨[]⟩ "alpha" "beta" (by decide)).1⟩

/-- C6: `tell_one` on a Distributor whose subscriber snapshot is empty
delivers the Unreachable error; the embedded operation is a total function,
so no input makes it panic. -/
theorem tell_one_empty_unreachable (reg : Registry) (d : Distributor)
    (m : DynVal) (h : reg.snapshot d.spur = []) :
    d.tell_one reg m = .error .Unreachable := by
  unfold Distributor.tell_one GlobalDispatcher.tell
  rw [h]

/-- Witness for C6: an empty registry. -/
theorem tell_one_empty_unreachable_witness :
    (Registry.mk fun _ => []).snapshot 0 = []
  ∧ Distributor.tell_one ⟨0⟩ ⟨fun _ => []⟩ .unitV = .error .Unreachable :=
  ⟨rfl, tell_one_empty_unreachable ⟨fun _ => []⟩ ⟨0⟩ .unitV rfl⟩

/-- C7: on a group with a nonempty snapshot, `ask_everyone` returns exactly
one reply handle per snapshot member; when every subscriber replies with the
same natural value `v`, the interpreted replies sum to `N * v`. -/
theorem ask_everyone_one_slot_each_and_sum (reg : Registry) (d : Distributor)
    (q : DynVal) (replies : Nat → DynVal → DynVal) (v : Nat)
    (hne : reg.snapshot d.spur ≠ [])
    (hv : ∀ e ∈ reg.snapshot d.spur, replies e q = .natV v) :
    ∃ ans : List Answer,
      d.ask_everyone reg q = .ok ans
      ∧ ans.length = (reg.snapshot d.spur).length
      ∧ ans.map Answer.endpoint = reg.snapshot d.spur
      ∧ (ans.map fun a => (decodeAs .nat (a.await replies)).getD 0).sum
          = (reg.snapshot d.spur).length * v := by
  unfold Distributor.ask_everyone GlobalDispatcher.ask_everyone
  cases hs : reg.snapshot d.spur with
  | nil => exact absurd hs hne
  | cons e rest =>
    refine ⟨(e :: rest).map (fun x => ⟨x, q⟩), rfl, by simp, ?_, ?_⟩
    · rw [List.map_map]
      show List.map id (e :: rest) = e :: rest
      exact List.map_id _
    rw [List.map_map]
    apply map_sum_const
    intro x hx
    have hr : replies x q = .natV v := by
      have := hv x (by rw [hs]; exact hx)
      exact this
    show (decodeAs .nat (Answer.await replies ⟨x, q⟩)).getD 0 = v
    unfold Answer.await
    rw [hr]
    rfl

/-- Witness for C7, the spec scenario: five subscribers each replying with
byte value 42 yield five envelopes whose interpreted replies sum to 210. -/
theorem ask_everyone_one_slot_each_and_sum_witness :
    ∃ ans : List Answer,
      Distributor.ask_everyone ⟨0⟩ ⟨fun _ => [1, 2, 3, 4, 5]⟩ (.strV "Q") = .ok ans
      ∧ ans.length = 5
      ∧ (ans.map fun a => (decodeAs .nat (a.await fun _ _ => .natV 42)).getD 0).sum
          = 210 := by
  obtain ⟨ans, h1, h2, _, h4⟩ :=
    ask_everyone_one_slot_each_and_sum ⟨fun _ => [1, 2, 3, 4, 5]⟩ ⟨0⟩ (.strV "Q")
      (fun _ _ => .natV 42) 42 (by decide) (fun e _ => rfl)
  exact ⟨ans, h1, h2, h4⟩

/-- C8: `unsubscribe` removes the endpoint from the subscriber set of this
Distributor's own name only — the subscriber list of every other name handle
is untouched. -/
theorem unsubscribe_only_own_name (reg : Registry) (d : Distributor)
    (e n : Nat) (h : n ≠ d.spur) :
    (d.unsubscribe reg e).subs n = reg.subs n
  ∧ e ∉ (d.unsubscribe reg e).subs d.spur := by
  constructor
  · simp [Distributor.unsubscribe, Registry.remove_recipient, h]
  · simp [Distributor.unsubscribe, Registry.remove_recipient, List.mem_filter]

/-- Witness for C8: endpoint 7 registered under names 0 and 1; unsubscribing
through the Distributor of name 0 leaves the group of name 1 unchanged. -/
theorem unsubscribe_only_own_name_witness :
    ((1 : Nat) ≠ 0)
  ∧ ((Distributor.mk 0).unsubscribe ⟨fun _ => [7]⟩ 7).subs 1 = [7]
  ∧ 7 ∉ ((Distributor.mk 0).unsubscribe ⟨fun _ => [7]⟩ 7).subs 0 := by
  have h := unsubscribe_only_own_name ⟨fun _ => [7]⟩ ⟨0⟩ 7 1 (by decide)
  exact ⟨by decide, h.1, h.2⟩

/-- C9: the ReplyFailed, TypeMismatch and Timeout outcomes of all three
request variants are each delivered as the single `SendError::Other` variant
wrapping an anyhow message, so no error-variant match separates them; their
message texts, however, are pairwise distinct. -/
theorem request_errors_all_use_other (R : Ty) (m : DynVal) (h : m.ty ≠ R) :
    (deliveredIsOther (Distributor.request R (.ok ()) (.ok m)) = true
      ∧ deliveredIsOther (Distributor.request_sync R (.ok ()) (.ok m)) = true
      ∧ deliveredIsOther (Distributor.request_timeout R (.ok ()) (.reply (.ok m))) = true)
  ∧ (deliveredIsOther (Distributor.request R (.ok ()) .canceled) = true
      ∧ deliveredIsOther (Distributor.request_sync R (.ok ()) .canceled) = true
      ∧ deliveredIsOther (Distributor.request_timeout R (.ok ()) (.reply .canceled)) = true)
  ∧ (∀ late, deliveredIsOther (Distributor.request_timeout R (.ok ()) (.timedOut late)) = true)
  ∧ (∃ s1 s2 s3,
      Distributor.request R (.ok ()) (.ok m) = .error (.Other s1)
      ∧ Distributor.request R (.ok ()) .canceled = .error (.Other s2)
      ∧ (∀ late, Distributor.request_timeout R (.ok ()) (.timedOut late)
          = .error (.Other s3))
      ∧ s1 ≠ s2 ∧ s1 ≠ s3 ∧ s2 ≠ s3) := by
  have hd : decodeAs R m = none := decodeAs_eq_none_of_ty_ne R m h
  have hmm : interpretReply R m = .error (.Other typeMismatchMsg) := by
    unfold interpretReply
    rw [hd]
  refine ⟨⟨?_, ?_, ?_⟩, ⟨rfl, rfl, rfl⟩, fun late => rfl,
    ⟨typeMismatchMsg, "couldn't receive reply: " ++ canceledDebug, timeoutMsg,
      ?_, rfl, fun late => rfl, by decide, by decide, by decide⟩⟩
  · show deliveredIsOther (interpretReply R m) = true
    rw [hmm]
    rfl
  · show deliveredIsOther (interpretReply R m) = true
    rw [hmm]
    rfl
  · show deliveredIsOther (interpretReply R m) = true
    rw [hmm]
    rfl
  · show interpretReply R m = .error (.Other typeMismatchMsg)
    exact hmm

/-- Witness for C9 at a concrete wrong-typed reply. -/
theorem request_errors_all_use_other_witness :
    (DynVal.boolV true).ty ≠ Ty.nat
  ∧ deliveredIsOther (Distributor.request .nat (.ok ()) (.ok (.boolV true))) = true :=
  ⟨by decide, (request_errors_all_use_other .nat (.boolV true) (by decide)).1.1⟩

/-- C10: every request-style task discards the result of its `sender.send`
(`let _ = ...`), so the task finishes normally for every outcome even when
the receiver has been dropped; the failed send merely hands the undelivered
result back, producing no panic and no error. -/
theorem dropping_receiver_is_safe (R : Ty) :
    (∀ alive a r, requestTaskRun R alive a r = .ok ())
  ∧ (∀ alive a r, requestSyncTaskRun R alive a r = .ok ())
  ∧ (∀ alive a c, requestTimeoutTaskRun R alive a c = .ok ())
  ∧ (∀ x : Except SendError R.denote, conduitSend false x = .error x) := by
  exact ⟨fun _ _ _ => rfl, fun _ _ _ => rfl, fun _ _ _ => rfl, fun _ => rfl⟩

end Bastion
